import Mathlib

/-!
Shallow embedding of the Sentinel-AI-AutoTriage core workflow, translated
from `src/auto_triage.py`, `src/llm_client.py`, `src/sentinel_client.py`
and `src/models.py`.

Conventions of the embedding:
* A raised Python exception is an `Except.error`; normal return is `.ok`.
* The two external collaborators (the Azure Security Insights incident
  store and the OpenAI chat endpoint) are oracles collected in `Env`;
  each oracle may raise.  Pre-loop configuration and the Sentinel client
  construction are modelled as having already succeeded (their failures
  are fatal before the loop, which no claim here disputes); the
  `LLMClient.__init__` outcome is kept because `run_triage` handles it.
* The Azure SDK declares an incident's `severity` and `status` as
  `Optional[Union[str, Enum]]`; this union is embedded as `EnumField`
  (`absent` for `None`, `enum` for an enum member, `raw` for a plain
  string).  Python attribute access `x.name` on a plain string raises
  `AttributeError`, which the embedding makes explicit.
* Log calls are recorded as `LogEvent` values carrying exactly the
  arguments the corresponding Python logging call formats in.
-/

/-- A Python exception value (all modelled exceptions are subclasses of
`Exception`, hence caught by a bare `except Exception`). -/
inductive PyExc where
  | attributeError
  | err (msg : String)
deriving DecidableEq, Repr

/-- The Azure SDK enum `IncidentStatus` (`New`, `Active`, `Closed`). -/
inductive IncidentStatus where
  | NEW
  | ACTIVE
  | CLOSED
deriving DecidableEq, Repr

/-- Python `Enum.name`: the member name of the enum constant. -/
def IncidentStatus.name : IncidentStatus → String
  | .NEW => "NEW"
  | .ACTIVE => "ACTIVE"
  | .CLOSED => "CLOSED"

/-- Python `Enum.value` (Azure enums are `str` subclasses, so `==` against a
plain string compares this value). -/
def IncidentStatus.value : IncidentStatus → String
  | .NEW => "New"
  | .ACTIVE => "Active"
  | .CLOSED => "Closed"

/-- The Azure SDK enum `IncidentSeverity`. -/
inductive IncidentSeverity where
  | HIGH
  | MEDIUM
  | LOW
  | INFORMATIONAL
deriving DecidableEq, Repr

/-- Python `Enum.name` for `IncidentSeverity`. -/
def IncidentSeverity.name : IncidentSeverity → String
  | .HIGH => "HIGH"
  | .MEDIUM => "MEDIUM"
  | .LOW => "LOW"
  | .INFORMATIONAL => "INFORMATIONAL"

/-- An Azure model field declared `Optional[Union[str, Enum]]`: `None`, an
enum member, or a plain string. -/
inductive EnumField (α : Type) where
  | absent
  | enum (e : α)
  | raw (s : String)
deriving DecidableEq, Repr

/-- The mutable fields of `IncidentProperties` that this program reads or
writes (title, description, severity, status, classification,
classification_comment). -/
structure IncidentProperties where
  title : Option String
  description : Option String
  severity : EnumField IncidentSeverity
  status : EnumField IncidentStatus
  classification : Option String
  classification_comment : Option String
deriving DecidableEq, Repr

/-- An Azure `Incident` record: `name` is the incident id used by the
program, `properties` may be `None`. -/
structure Incident where
  name : String
  properties : Option IncidentProperties
deriving DecidableEq, Repr

/-- `IncidentSummary` from `src/models.py`: the simplified representation
built once per incident. -/
structure IncidentSummary where
  id : String
  title : String
  description : String
  severity : String
  status : String
deriving DecidableEq, Repr

/-- `IncidentSummary.as_prompt` from `src/models.py`. -/
def IncidentSummary.as_prompt (s : IncidentSummary) : String :=
  "[" ++ s.severity ++ "] " ++ s.title ++ ": " ++ s.description

/-- The dictionary returned by `LLMClient.analyse_incident` (its three keys
are always present). -/
structure LLMResult where
  recommended_status : String
  classification : String
  comment : String
deriving DecidableEq, Repr

/-- One logging call, as an event carrying exactly the format arguments of
the corresponding Python `logger` call. -/
inductive LogEvent where
  | errorLLMInit (exc : PyExc)
  | errorListing (exc : PyExc)
  | infoFetched (count : Nat)
  | infoProcessing (id : String)
  | infoNoChange (id : String)
  | errorLLM (exc : PyExc)
  | warnNotFound (id : String)
  | infoUpdated (id : String) (status : IncidentStatus) (classification : Option String)
  | errorUpdating (id : String) (exc : PyExc)
  | exceptionUnhandled (exc : PyExc)
deriving DecidableEq, Repr

/-- The status argument a log event carries, if any: only the
success log `"Updated incident %s to status %s with classification %s"`
formats a status in. -/
def LogEvent.statusArg : LogEvent → Option IncidentStatus
  | .infoUpdated _ st _ => some st
  | _ => none

/-- Whether a log event carries an incident id among its arguments. -/
def LogEvent.idArg : LogEvent → Option String
  | .infoProcessing id => some id
  | .infoNoChange id => some id
  | .warnNotFound id => some id
  | .infoUpdated id _ _ => some id
  | .errorUpdating id _ => some id
  | _ => none

/-- A call issued to the incident store: `incidents.get` or
`incidents.create_or_update`. -/
inductive StoreOp where
  | get (id : String)
  | put (id : String) (record : Incident)
deriving DecidableEq, Repr

deriving instance DecidableEq for Except

/-- Result of running a piece of the workflow: the store calls it issued in
order, the log events it emitted in order, and whether it returned
normally or raised. -/
structure RunOut where
  ops : List StoreOp
  logs : List LogEvent
  outcome : Except PyExc Unit
deriving DecidableEq, Repr

/-- The external world: `LLMClient.__init__` outcome, the chat-completion
call (prompt to reply), `incidents.list`, `incidents.get` and
`incidents.create_or_update`. -/
structure Env where
  llmInit : Except PyExc Unit
  llmComplete : String → Except PyExc String
  listResult : Except PyExc (List Incident)
  getResult : String → Except PyExc (Option Incident)
  putResult : String → Incident → Except PyExc Unit

/-- Python `x or d` for an `Optional[str] x`: `None` and the empty string
are falsy. -/
def pyOrStr (v : Option String) (d : String) : String :=
  match v with
  | none => d
  | some s => if s = "" then d else s

/-- Python `x or None` for a `str x` (used by `result.get("…") or None` in
`run_triage`): an empty string becomes `None`. -/
def pyOrNone (s : String) : Option String :=
  if s = "" then none else some s

/-- Python truthiness of an `Optional[str]` (the `if classification:` /
`if comment:` guards). -/
def optTruthy : Option String → Bool
  | none => false
  | some s => !(s == "")

/-- Python `str.lower()`, embedded character-wise (ASCII-faithful). -/
def pyLower (s : String) : String :=
  String.mk (s.data.map Char.toLower)

/-- Python `str.startswith(p)`, embedded as a code-point prefix test. -/
def pyStartsWith (s p : String) : Bool :=
  p.data.isPrefixOf s.data

/-- Python `str.strip()`: leading and trailing whitespace removed. -/
def pyStrip (s : String) : String :=
  String.mk (((s.data.dropWhile Char.isWhitespace).reverse.dropWhile Char.isWhitespace).reverse)

/-- Python `field.name if field else "Unknown"` on an
`Optional[Union[str, Enum]]` field: `None` and `""` are falsy and give
`"Unknown"`; an enum member gives its `.name`; a non-empty plain string has
no `.name` attribute, so the expression raises `AttributeError`. -/
def enumFieldText {α : Type} (name : α → String) : EnumField α → Except PyExc String
  | .absent => .ok "Unknown"
  | .enum e => .ok (name e)
  | .raw s => if s = "" then .ok "Unknown" else .error .attributeError

/-- The `IncidentSummary(...)` construction in `run_triage` (lines 76-82),
given `props` already known non-`None`; keyword arguments evaluate in
order, severity before status. -/
def buildSummaryProps (name : String) (props : IncidentProperties) : Except PyExc IncidentSummary :=
  match enumFieldText IncidentSeverity.name props.severity with
  | .error e => .error e
  | .ok sev =>
    match enumFieldText IncidentStatus.name props.status with
    | .error e => .error e
    | .ok st =>
      .ok { id := name,
            title := pyOrStr props.title "(no title)",
            description := pyOrStr props.description "(no description)",
            severity := sev,
            status := st }

/-- Summary construction from a raw incident: `props = inc.properties`
followed by the attribute accesses, which raise `AttributeError` when
`properties` is `None`. -/
def buildSummary (inc : Incident) : Except PyExc IncidentSummary :=
  match inc.properties with
  | none => .error .attributeError
  | some props => buildSummaryProps inc.name props

/-- The fixed-shape prompt composed by `LLMClient.analyse_incident`. -/
def buildPrompt (incident_title incident_description : String) : String :=
  "You are a cybersecurity analyst. A SIEM incident has the following title" ++
  " and description:\nTitle: " ++ incident_title ++ "\nDescription: " ++
  incident_description ++ "\n" ++
  "Provide a recommended incident status (New, Active or Closed), a brief classification (True Positive, False Positive" ++
  ", or Benign) and a one-sentence comment explaining your decision."

/-- `LLMClient.analyse_incident` (`src/llm_client.py` lines 38-79): the
chat call and everything after it sit inside `try`; on success the
placeholder parsing returns `"Active"`, an empty classification and the
stripped reply as comment; on any exception the error is logged and the
safe-default dictionary is returned. -/
def analyse_incident (env : Env) (incident_title incident_description : String) :
    LLMResult × List LogEvent :=
  match env.llmComplete (buildPrompt incident_title incident_description) with
  | .ok content =>
      ({ recommended_status := "Active", classification := "", comment := pyStrip content }, [])
  | .error e =>
      ({ recommended_status := "Active", classification := "Unspecified",
         comment := "LLM analysis failed; leaving incident open." }, [.errorLLM e])

/-- The status-filter in `list_active_incidents`:
`incident.properties.status in [IncidentStatus.NEW, IncidentStatus.ACTIVE]`.
Azure enums are `str` subclasses, so a plain string equal to `"New"` or
`"Active"` also passes. -/
def statusInNewActive : EnumField IncidentStatus → Bool
  | .absent => false
  | .enum e => e == .NEW || e == .ACTIVE
  | .raw s => s == "New" || s == "Active"

/-- The whole per-incident filter in `list_active_incidents`:
`incident.properties and incident.properties.status in [...]`. -/
def isActive (inc : Incident) : Bool :=
  match inc.properties with
  | none => false
  | some p => statusInNewActive p.status

/-- `list_active_incidents` (`src/sentinel_client.py` lines 60-77): lists,
filters to New/Active, logs the count; any exception is caught, logged and
an empty list returned. -/
def list_active_incidents (env : Env) : List Incident × List LogEvent :=
  match env.listResult with
  | .error e => ([], [.errorListing e])
  | .ok l =>
      let active := l.filter isActive
      (active, [.infoFetched active.length])

/-- Python `status_enum != props.status` in `run_triage` (line 96): an enum
member compared against an `Optional[Union[str, Enum]]` field; against a
plain string the `str`-subclass equality compares the enum value. -/
def pyNe (e : IncidentStatus) : EnumField IncidentStatus → Bool
  | .absent => true
  | .enum f => !(e == f)
  | .raw s => !(e.value == s)

/-- The status-mapping in `run_triage` (lines 89-94): `status_enum` starts
as `ACTIVE` and is overridden by the case-insensitive prefix tests. -/
def mapStatus (recommended_status : String) : IncidentStatus :=
  if pyStartsWith (pyLower recommended_status) "clos" then .CLOSED
  else if pyStartsWith (pyLower recommended_status) "new" then .NEW
  else .ACTIVE

/-- The decision gate of `run_triage`: update exactly when the mapped
status differs from the incident's current status. -/
def decideAction (currentStatus : EnumField IncidentStatus) (recommended_status : String) : Bool :=
  pyNe (mapStatus recommended_status) currentStatus

/-- The body of the `try` in `update_incident_status`
(`src/sentinel_client.py` lines 93-124): re-fetch, falsiness check, field
mutation, submit, success log.  `current.properties.status = status` on a
record whose `properties` is `None` raises `AttributeError`. -/
def update_incident_status_body (env : Env) (incident : Incident) (status : IncidentStatus)
    (classification comment : Option String) : RunOut :=
  match env.getResult incident.name with
  | .error e => { ops := [.get incident.name], logs := [], outcome := .error e }
  | .ok none =>
      { ops := [.get incident.name], logs := [.warnNotFound incident.name], outcome := .ok () }
  | .ok (some current) =>
      match current.properties with
      | none => { ops := [.get incident.name], logs := [], outcome := .error .attributeError }
      | some props =>
          let newProps : IncidentProperties :=
            { props with
              status := .enum status,
              classification := if optTruthy classification then classification else props.classification,
              classification_comment := if optTruthy comment then comment else props.classification_comment }
          let newCurrent : Incident := { current with properties := some newProps }
          match env.putResult newCurrent.name newCurrent with
          | .error e =>
              { ops := [.get incident.name, .put newCurrent.name newCurrent], logs := [],
                outcome := .error e }
          | .ok _ =>
              { ops := [.get incident.name, .put newCurrent.name newCurrent],
                logs := [.infoUpdated incident.name status classification], outcome := .ok () }

/-- `update_incident_status` (`src/sentinel_client.py` lines 79-126): the
body above wrapped in the blanket `except Exception`, which logs
`"Error updating incident %s: %s"` with the incident id and the exception
and returns normally. -/
def update_incident_status (env : Env) (incident : Incident) (status : IncidentStatus)
    (classification comment : Option String) : RunOut :=
  let r := update_incident_status_body env incident status classification comment
  match r.outcome with
  | .ok _ => r
  | .error e =>
      { ops := r.ops, logs := r.logs ++ [.errorUpdating incident.name e], outcome := .ok () }

/-- One iteration of the `for inc in incidents` body of `run_triage`
(lines 74-106).  Note there is no `try` around this body in the source:
any exception raised here propagates. -/
def processIncident (env : Env) (inc : Incident) : RunOut :=
  match inc.properties with
  | none => { ops := [], logs := [], outcome := .error .attributeError }
  | some props =>
      match buildSummaryProps inc.name props with
      | .error e => { ops := [], logs := [], outcome := .error e }
      | .ok summary =>
          let ar := analyse_incident env summary.title summary.description
          let result := ar.1
          let classification := pyOrNone result.classification
          let comment := pyOrNone result.comment
          let status_enum := mapStatus result.recommended_status
          if pyNe status_enum props.status then
            let u := update_incident_status env inc status_enum classification comment
            { ops := u.ops,
              logs := .infoProcessing summary.id :: (ar.2 ++ u.logs),
              outcome := u.outcome }
          else
            { ops := [],
              logs := .infoProcessing summary.id :: (ar.2 ++ [.infoNoChange summary.id]),
              outcome := .ok () }

/-- The `for` loop of `run_triage`: iterations run in order; an exception
raised by an iteration propagates and the remaining incidents are not
processed. -/
def triageLoop (env : Env) : List Incident → RunOut
  | [] => { ops := [], logs := [], outcome := .ok () }
  | inc :: rest =>
      let r := processIncident env inc
      match r.outcome with
      | .error e => { ops := r.ops, logs := r.logs, outcome := .error e }
      | .ok _ =>
          let rr := triageLoop env rest
          { ops := r.ops ++ rr.ops, logs := r.logs ++ rr.logs, outcome := rr.outcome }

/-- `run_triage` (`src/auto_triage.py` lines 56-106), from the point where
configuration and the Sentinel client exist: a failed `LLMClient`
construction is logged and aborts the pass; otherwise the active incidents
are fetched and the loop runs. -/
def run_triage (env : Env) : RunOut :=
  match env.llmInit with
  | .error e => { ops := [], logs := [.errorLLMInit e], outcome := .ok () }
  | .ok _ =>
      let fetched := list_active_incidents env
      let r := triageLoop env fetched.1
      { ops := r.ops, logs := fetched.2 ++ r.logs, outcome := r.outcome }

/-- The `if __name__ == "__main__"` guard of `src/auto_triage.py`: anything
escaping `run_triage` is caught here and logged, after which the process
ends. -/
def mainEntry (env : Env) : List StoreOp × List LogEvent :=
  let r := run_triage env
  match r.outcome with
  | .ok _ => (r.ops, r.logs)
  | .error e => (r.ops, r.logs ++ [.exceptionUnhandled e])

/-- Whether an incident's severity/status field can be rendered by
`props.field.name if props.field else "Unknown"` without raising: it must
be absent, an enum member, or the (falsy) empty string. -/
def fieldOk {α : Type} : EnumField α → Bool
  | .raw s => s == ""
  | _ => true

/-- Whether some recorded log event formats a status value in. -/
def logsCarryStatus (l : List LogEvent) : Bool :=
  l.any fun ev => (ev.statusArg).isSome

/-- Whether the log trace contains the `"Processing incident %s"` event
for the given incident id. -/
def logsContainProcessing (l : List LogEvent) (id : String) : Bool :=
  l.any fun ev => ev == .infoProcessing id

/-- Test environment in which every external call fails. -/
def envFail : Env :=
  { llmInit := .ok (),
    llmComplete := fun _ => .error (.err "boom"),
    listResult := .error (.err "boom"),
    getResult := fun _ => .error (.err "boom"),
    putResult := fun _ _ => .error (.err "boom") }

/-- Test environment whose model reply carries surrounding whitespace. -/
def env6 : Env :=
  { llmInit := .ok (),
    llmComplete := fun _ => .ok " Benign activity. ",
    listResult := .ok [],
    getResult := fun _ => .ok none,
    putResult := fun _ _ => .ok () }

/-- Test environment whose incident store has no incidents. -/
def env7 : Env :=
  { llmInit := .ok (),
    llmComplete := fun _ => .ok "text",
    listResult := .ok [],
    getResult := fun _ => .ok none,
    putResult := fun _ _ => .ok () }

/-- Test incident with no properties. -/
def inc7 : Incident := { name := "inc-7", properties := none }

/-- Test properties carrying an existing classification and comment. -/
def props9 : IncidentProperties :=
  { title := some "Beaconing", description := some "Periodic callbacks",
    severity := .enum .MEDIUM, status := .enum .NEW,
    classification := some "Undetermined", classification_comment := some "old note" }

/-- Test incident built on `props9`. -/
def inc9 : Incident := { name := "inc-9", properties := some props9 }

/-- Test environment whose store re-fetch returns `inc9`. -/
def env9 : Env :=
  { llmInit := .ok (),
    llmComplete := fun _ => .ok "text",
    listResult := .ok [inc9],
    getResult := fun _ => .ok (some inc9),
    putResult := fun _ _ => .ok () }

/-- The properties expected in the record submitted for `inc9`. -/
def newProps9 : IncidentProperties :=
  { props9 with status := .enum .ACTIVE, classification_comment := some "Benign, closing." }

/-- The record expected in the submit call for `inc9`. -/
def r9 : Incident := { name := "inc-9", properties := some newProps9 }

/-- Test properties for an incident already in the Active status. -/
def props4 : IncidentProperties :=
  { title := some "Port scan", description := some "External scan detected",
    severity := .enum .LOW, status := .enum .ACTIVE,
    classification := none, classification_comment := none }

/-- Test incident built on `props4`. -/
def inc4 : Incident := { name := "inc-4", properties := some props4 }

/-- Test environment listing only `inc4`. -/
def env4 : Env :=
  { llmInit := .ok (),
    llmComplete := fun _ => .ok "Keep active.",
    listResult := .ok [inc4],
    getResult := fun _ => .ok (some inc4),
    putResult := fun _ _ => .ok () }

/-- The summary `run_triage` builds for `inc4`. -/
def summary4 : IncidentSummary :=
  { id := "inc-4", title := "Port scan", description := "External scan detected",
    severity := "LOW", status := "ACTIVE" }

/-- Test properties for a New incident whose update will fail. -/
def props8 : IncidentProperties :=
  { title := some "Malware beacon", description := some "C2 traffic",
    severity := .enum .HIGH, status := .enum .NEW,
    classification := none, classification_comment := none }

/-- Test incident built on `props8`. -/
def inc8 : Incident := { name := "inc-8", properties := some props8 }

/-- Test environment whose store submit call always fails. -/
def env8 : Env :=
  { llmInit := .ok (),
    llmComplete := fun _ => .ok "Investigate further.",
    listResult := .ok [inc8],
    getResult := fun _ => .ok (some inc8),
    putResult := fun _ _ => .error (.err "503 Service Unavailable") }

/-- Test properties whose status field is the plain string `"New"`, as the
Azure SDK type `Optional[Union[str, IncidentStatus]]` permits. -/
def propsBad : IncidentProperties :=
  { title := some "Phishing report", description := some "Suspicious email",
    severity := .enum .HIGH, status := .raw "New",
    classification := none, classification_comment := none }

/-- Test incident built on `propsBad`. -/
def incBad : Incident := { name := "inc-bad", properties := some propsBad }

/-- Test properties for a well-formed New incident. -/
def propsGood : IncidentProperties :=
  { title := some "Malware download", description := some "User downloaded payload",
    severity := .enum .HIGH, status := .enum .NEW,
    classification := none, classification_comment := none }

/-- Test incident built on `propsGood`. -/
def incGood : Incident := { name := "inc-good", properties := some propsGood }

/-- Test environment listing `incBad` before `incGood`. -/
def env1 : Env :=
  { llmInit := .ok (),
    llmComplete := fun _ => .ok "Close as benign.",
    listResult := .ok [incBad, incGood],
    getResult := fun _ => .ok (some incGood),
    putResult := fun _ _ => .ok () }

/-- Test properties whose title is present but empty. -/
def propsEmptyTitle : IncidentProperties :=
  { title := some "", description := some "desc",
    severity := .enum .HIGH, status := .enum .NEW,
    classification := none, classification_comment := none }

/-- Test incident built on `propsEmptyTitle`. -/
def incEmptyTitle : Incident := { name := "inc-10", properties := some propsEmptyTitle }

/-- Test properties with every optional field absent. -/
def propsAllAbsent : IncidentProperties :=
  { title := none, description := none, severity := .absent, status := .absent,
    classification := none, classification_comment := none }

/-- Test incident built on `propsAllAbsent`. -/
def incAllAbsent : Incident := { name := "inc-w10", properties := some propsAllAbsent }

/-- Test properties for the end-to-end New incident scenario. -/
def props5 : IncidentProperties :=
  { title := some "Suspicious login", description := some "Multiple failed attempts",
    severity := .enum .HIGH, status := .enum .NEW,
    classification := none, classification_comment := none }

/-- Test incident built on `props5`. -/
def inc5 : Incident := { name := "inc-1", properties := some props5 }

/-- Test environment for the end-to-end New incident scenario. -/
def env5 : Env :=
  { llmInit := .ok (),
    llmComplete := fun _ => .ok "Looks benign.",
    listResult := .ok [inc5],
    getResult := fun _ => .ok (some inc5),
    putResult := fun _ _ => .ok () }

/-- The properties expected in the record submitted for `inc5`. -/
def newProps5 : IncidentProperties :=
  { props5 with status := .enum .ACTIVE, classification_comment := some "Looks benign." }

/-- The record expected in the submit call for `inc5`. -/
def rec5 : Incident := { name := "inc-1", properties := some newProps5 }

/-- Two non-empty lists that are both prefixes of the same list share their
head element. -/
theorem isPrefixOf_head_eq {a b : Char} {as bs l : List Char}
    (ha : (a :: as).isPrefixOf l = true) (hb : (b :: bs).isPrefixOf l = true) : a = b := by
  cases l with
  | nil => simp [List.isPrefixOf] at ha
  | cons c cs =>
      simp only [List.isPrefixOf, Bool.and_eq_true, beq_iff_eq] at ha hb
      exact ha.1.trans hb.1.symm

/-- A string starting with `"new"` cannot also start with `"clos"`. -/
theorem pyStartsWith_new_not_clos (t : String) (h : pyStartsWith t "new" = true) :
    pyStartsWith t "clos" = false := by
  by_contra hcon
  rw [Bool.not_eq_false] at hcon
  have hc : (('c') :: ['l', 'o', 's']).isPrefixOf t.data = true := hcon
  have hn : (('n') :: ['e', 'w']).isPrefixOf t.data = true := h
  have : 'c' = 'n' := isPrefixOf_head_eq hc hn
  exact absurd this (by decide)

/-- The store calls of `update_incident_status` are those of its `try`
body: the `except` clause issues no further call. -/
theorem update_ops_eq_body_ops (env : Env) (incident : Incident) (status : IncidentStatus)
    (classification comment : Option String) :
    (update_incident_status env incident status classification comment).ops =
    (update_incident_status_body env incident status classification comment).ops := by
  unfold update_incident_status
  cases h : (update_incident_status_body env incident status classification comment).outcome <;>
    simp [h]

/-- `update_incident_status` always returns normally: its blanket
`except Exception` absorbs whatever the body raises. -/
theorem update_incident_status_total (env : Env) (incident : Incident) (status : IncidentStatus)
    (classification comment : Option String) :
    (update_incident_status env incident status classification comment).outcome = .ok () := by
  unfold update_incident_status
  cases h : (update_incident_status_body env incident status classification comment).outcome <;>
    simp [h]

/-- When the body of `update_incident_status` raises, the wrapper returns
the body's trace extended by the error log. -/
theorem update_incident_status_catch (env : Env) (incident : Incident) (status : IncidentStatus)
    (classification comment : Option String) (e : PyExc)
    (h : (update_incident_status_body env incident status classification comment).outcome =
      .error e) :
    update_incident_status env incident status classification comment =
      { ops := (update_incident_status_body env incident status classification comment).ops,
        logs := (update_incident_status_body env incident status classification comment).logs ++
          [.errorUpdating incident.name e],
        outcome := .ok () } := by
  unfold update_incident_status
  simp [h]

/-- Every invocation of `update_incident_status` begins with the re-fetch
call for the incident's id. -/
theorem update_ops_head (env : Env) (incident : Incident) (status : IncidentStatus)
    (classification comment : Option String) :
    ∃ t, (update_incident_status env incident status classification comment).ops =
      .get incident.name :: t := by
  rw [update_ops_eq_body_ops]
  unfold update_incident_status_body
  split
  · exact ⟨[], rfl⟩
  · exact ⟨[], rfl⟩
  · split
    · exact ⟨[], rfl⟩
    · dsimp only
      split
      · exact ⟨_, rfl⟩
      · exact ⟨_, rfl⟩

/-- When summary construction succeeds, the rest of the per-incident body
cannot raise: the model call and the update application each catch their
own exceptions. -/
theorem processIncident_outcome_ok (env : Env) (inc : Incident) (props : IncidentProperties)
    (summary : IncidentSummary) (h1 : inc.properties = some props)
    (h2 : buildSummaryProps inc.name props = .ok summary) :
    (processIncident env inc).outcome = .ok () := by
  simp only [processIncident, h1, h2]
  split
  · simp [update_incident_status_total]
  · rfl

/-- Python `x or d` yields the default on `None` and on the empty string. -/
theorem pyOrStr_default (v : Option String) (d : String) (h : v = none ∨ v = some "") :
    pyOrStr v d = d := by
  rcases h with rfl | rfl <;> simp [pyOrStr]

/-- Python `x or d` passes a non-empty string through. -/
theorem pyOrStr_keep (v : Option String) (d t : String) (h : v = some t) (ht : t ≠ "") :
    pyOrStr v d = t := by
  subst h; simp [pyOrStr, ht]

/-- The severity/status rendering yields `"Unknown"` on a falsy field. -/
theorem enumFieldText_default {α : Type} (name : α → String) (f : EnumField α)
    (h : f = .absent ∨ f = .raw "") : enumFieldText name f = .ok "Unknown" := by
  rcases h with rfl | rfl <;> simp [enumFieldText]

/-- The severity/status rendering yields the member name on an enum field. -/
theorem enumFieldText_enum {α : Type} (name : α → String) (f : EnumField α) (e : α)
    (h : f = .enum e) : enumFieldText name f = .ok (name e) := by
  subst h; rfl

/-- The severity/status rendering succeeds exactly on `fieldOk` fields. -/
theorem enumFieldText_ok_of_fieldOk {α : Type} (name : α → String) (f : EnumField α)
    (h : fieldOk f = true) : ∃ t, enumFieldText name f = .ok t := by
  cases f with
  | absent => exact ⟨"Unknown", rfl⟩
  | enum e => exact ⟨name e, rfl⟩
  | raw s =>
      have : s = "" := by simpa [fieldOk] using h
      subst this
      exact ⟨"Unknown", rfl⟩

/-- Characterisation of a successful summary construction in terms of the
rendered severity and status texts. -/
theorem buildSummaryProps_char (name : String) (props : IncidentProperties)
    (sevText stText : String)
    (hsev : enumFieldText IncidentSeverity.name props.severity = .ok sevText)
    (hst : enumFieldText IncidentStatus.name props.status = .ok stText) :
    buildSummaryProps name props =
      .ok { id := name, title := pyOrStr props.title "(no title)",
            description := pyOrStr props.description "(no description)",
            severity := sevText, status := stText } := by
  unfold buildSummaryProps
  rw [hsev, hst]

/-- The placeholder parser recommends `"Active"` on both the success and
the failure path. -/
theorem analyse_rec_active (env : Env) (t d : String) :
    (analyse_incident env t d).1.recommended_status = "Active" := by
  unfold analyse_incident
  cases env.llmComplete (buildPrompt t d) <;> rfl

/-- The text `"Active"` maps to the `ACTIVE` store status. -/
theorem mapStatus_Active : mapStatus "Active" = .ACTIVE := by decide

/-- Every store call of the loop belongs to the processing of some listed
incident. -/
theorem triageLoop_ops_mem (env : Env) (incs : List Incident) (op : StoreOp)
    (h : op ∈ (triageLoop env incs).ops) :
    ∃ inc, inc ∈ incs ∧ op ∈ (processIncident env inc).ops := by
  induction incs with
  | nil => simp [triageLoop] at h
  | cons a l ih =>
      simp only [triageLoop] at h
      cases ho : (processIncident env a).outcome with
      | error e =>
          rw [ho] at h
          exact ⟨a, by simp, h⟩
      | ok u =>
          rw [ho] at h
          simp only [List.mem_append] at h
          rcases h with h | h
          · exact ⟨a, by simp, h⟩
          · obtain ⟨inc, hmem, hop⟩ := ih h
            exact ⟨inc, by simp [hmem], hop⟩

/-- Every incident returned by `list_active_incidents` passed its filter. -/
theorem mem_list_active (env : Env) (inc : Incident)
    (h : inc ∈ (list_active_incidents env).1) : isActive inc = true := by
  unfold list_active_incidents at h
  cases hl : env.listResult with
  | error e => rw [hl] at h; simp at h
  | ok l =>
      rw [hl] at h
      simp only at h
      exact List.of_mem_filter h

/-- Every store call of `update_incident_status` is the re-fetch for the
incident's id or a submit whose record carries the requested status. -/
theorem update_ops_mem (env : Env) (incident : Incident) (status : IncidentStatus)
    (classification comment : Option String) (op : StoreOp)
    (h : op ∈ (update_incident_status env incident status classification comment).ops) :
    op = .get incident.name ∨
    ∃ id r newProps, op = .put id r ∧ r.properties = some newProps ∧
      newProps.status = .enum status := by
  rw [update_ops_eq_body_ops] at h
  unfold update_incident_status_body at h
  split at h
  · simp at h; exact .inl h
  · simp at h; exact .inl h
  · split at h
    · simp at h; exact .inl h
    · dsimp only at h
      split at h <;>
      · simp at h
        rcases h with h | h
        · exact .inl h
        · subst h; exact .inr ⟨_, _, _, rfl, rfl, rfl⟩

/-- A per-incident iteration issues store calls only when its properties
exist, its summary construction succeeded, and the decision gate fired for
the `ACTIVE` status the placeholder parser forces. -/
theorem processIncident_ops_cases (env : Env) (inc : Incident) (op : StoreOp)
    (h : op ∈ (processIncident env inc).ops) :
    ∃ props, inc.properties = some props ∧
      (∃ summary, buildSummaryProps inc.name props = .ok summary) ∧
      pyNe .ACTIVE props.status = true ∧
      ∃ classification comment,
        op ∈ (update_incident_status env inc .ACTIVE classification comment).ops := by
  cases hp : inc.properties with
  | none => simp [processIncident, hp] at h
  | some props =>
      cases hb : buildSummaryProps inc.name props with
      | error e => simp [processIncident, hp, hb] at h
      | ok summary =>
          simp only [processIncident, hp, hb] at h
          rw [analyse_rec_active env summary.title summary.description, mapStatus_Active] at h
          cases hne : pyNe .ACTIVE props.status with
          | false => rw [hne] at h; simp at h
          | true =>
              rw [hne] at h
              simp only [if_true] at h
              exact ⟨props, rfl, ⟨summary, hb⟩, hne, _, _, h⟩

/-- C1, counterexample: the claim that an unexpected exception in the
per-incident body is caught, logged with the incident id, and the loop
continues, is false.  `incBad` (status field a plain string `"New"`, as the
SDK's field type permits) passes the active filter, its summary
construction raises `AttributeError`, the exception escapes `run_triage`,
and the second fetched incident `incGood` is never processed (no
`"Processing incident %s"` log is emitted for it, nor for `incBad`). -/
theorem run_triage_exception_escapes_loop :
    isActive incBad = true ∧
    incGood ∈ (list_active_incidents env1).1 ∧
    (run_triage env1).outcome = .error .attributeError ∧
    logsContainProcessing (run_triage env1).logs "inc-good" = false ∧
    logsContainProcessing (run_triage env1).logs "inc-bad" = false :=
  ⟨by decide, by decide, by decide, by decide, by decide⟩

/-- C1, amended claim: the per-incident body of `run_triage` has no
catch-all.  Any exception an iteration raises propagates out of the loop
unchanged, with the remaining incidents unprocessed; the only errors the
body absorbs are those of the model invocation and of update application
(so once summary construction succeeds an iteration returns normally); an
escaped exception is caught only by the top-level entry-point handler,
which logs it (without the incident id) and terminates the pass. -/
theorem triage_loop_propagates_body_exception :
    (∀ env inc rest e, (processIncident env inc).outcome = .error e →
      (triageLoop env (inc :: rest)).outcome = .error e ∧
      (triageLoop env (inc :: rest)).logs = (processIncident env inc).logs ∧
      (triageLoop env (inc :: rest)).ops = (processIncident env inc).ops) ∧
    (∀ env inc props summary, inc.properties = some props →
      buildSummaryProps inc.name props = .ok summary →
      (processIncident env inc).outcome = .ok ()) ∧
    (∀ env e, (run_triage env).outcome = .error e →
      mainEntry env = ((run_triage env).ops, (run_triage env).logs ++ [.exceptionUnhandled e])) := by
  refine ⟨?_, ?_, ?_⟩
  · intro env inc rest e h
    refine ⟨?_, ?_, ?_⟩ <;> simp [triageLoop, h]
  · intro env inc props summary h1 h2
    exact processIncident_outcome_ok env inc props summary h1 h2
  · intro env e h
    simp [mainEntry, h]

/-- C1, witness for the amended claim, evaluated on the `env1` scenario. -/
theorem triage_loop_propagates_body_exception_w :
    ((triageLoop env1 (incBad :: [incGood])).outcome = .error .attributeError ∧
      (triageLoop env1 (incBad :: [incGood])).logs = (processIncident env1 incBad).logs ∧
      (triageLoop env1 (incBad :: [incGood])).ops = (processIncident env1 incBad).ops) ∧
    (processIncident env1 incGood).outcome = .ok () ∧
    mainEntry env1 =
      ((run_triage env1).ops, (run_triage env1).logs ++ [.exceptionUnhandled .attributeError]) := by
  have h := triage_loop_propagates_body_exception
  exact ⟨h.1 env1 incBad [incGood] .attributeError (by decide),
    h.2.1 env1 incGood propsGood
      { id := "inc-good", title := "Malware download", description := "User downloaded payload",
        severity := "HIGH", status := "NEW" } rfl (by decide),
    h.2.2 env1 .attributeError (by decide)⟩

/-- C2: the decision policy maps recommended-status text by
case-insensitive prefix matching — a lowercase form starting with `"clos"`
maps to Closed, one starting with `"new"` maps to New, and every other
text maps to Active. -/
theorem mapStatus_prefix_cases (s : String) :
    (pyStartsWith (pyLower s) "clos" = true → mapStatus s = .CLOSED) ∧
    (pyStartsWith (pyLower s) "new" = true → mapStatus s = .NEW) ∧
    (pyStartsWith (pyLower s) "clos" = false → pyStartsWith (pyLower s) "new" = false →
      mapStatus s = .ACTIVE) := by
  refine ⟨fun h => ?_, fun h => ?_, fun h1 h2 => ?_⟩
  · simp [mapStatus, h]
  · simp [mapStatus, h, pyStartsWith_new_not_clos _ h]
  · simp [mapStatus, h1, h2]

/-- C2, witness: `"Closed - benign"` maps to Closed and the unrecognized
text `"Unknown"` falls back to Active. -/
theorem mapStatus_prefix_cases_w :
    pyStartsWith (pyLower "Closed - benign") "clos" = true ∧
    mapStatus "Closed - benign" = .CLOSED ∧
    pyStartsWith (pyLower "Unknown") "clos" = false ∧
    pyStartsWith (pyLower "Unknown") "new" = false ∧
    mapStatus "Unknown" = .ACTIVE :=
  ⟨by decide, (mapStatus_prefix_cases "Closed - benign").1 (by decide),
   by decide, by decide, (mapStatus_prefix_cases "Unknown").2.2 (by decide) (by decide)⟩

/-- C3: when the model invocation fails, `analyse_incident` returns (does
not raise) the safe-default recommendation — status `"Active"`,
classification `"Unspecified"`, and a non-empty comment — whatever the
title and description were. -/
theorem analyse_incident_provider_failure_default (env : Env)
    (incident_title incident_description : String) (e : PyExc)
    (h : env.llmComplete (buildPrompt incident_title incident_description) = .error e) :
    analyse_incident env incident_title incident_description =
      ({ recommended_status := "Active", classification := "Unspecified",
         comment := "LLM analysis failed; leaving incident open." }, [.errorLLM e]) ∧
    (analyse_incident env incident_title incident_description).1.comment ≠ "" := by
  refine ⟨by simp [analyse_incident, h], by simp [analyse_incident, h]⟩

/-- C3, witness: the safe default on an always-failing provider. -/
theorem analyse_incident_provider_failure_default_w :
    analyse_incident envFail "Suspicious login" "Multiple failed attempts" =
      ({ recommended_status := "Active", classification := "Unspecified",
         comment := "LLM analysis failed; leaving incident open." }, [.errorLLM (.err "boom")]) ∧
    (analyse_incident envFail "Suspicious login" "Multiple failed attempts").1.comment ≠ "" :=
  analyse_incident_provider_failure_default envFail "Suspicious login" "Multiple failed attempts"
    (.err "boom") rfl

/-- C4: once an incident's summary is built, the decision is the pure
gate `decideAction` on (current status, recommended status): the store is
touched if and only if the mapped status differs from the snapshot status,
and on equality no store call is attempted and the no-change message is
logged. -/
theorem decision_update_iff_status_differs (env : Env) (inc : Incident)
    (props : IncidentProperties) (summary : IncidentSummary)
    (h1 : inc.properties = some props)
    (h2 : buildSummaryProps inc.name props = .ok summary) :
    ((processIncident env inc).ops ≠ [] ↔
      decideAction props.status
        (analyse_incident env summary.title summary.description).1.recommended_status = true) ∧
    (decideAction props.status
        (analyse_incident env summary.title summary.description).1.recommended_status = false →
      (processIncident env inc).ops = [] ∧
      .infoNoChange summary.id ∈ (processIncident env inc).logs) := by
  have hd : decideAction props.status
      (analyse_incident env summary.title summary.description).1.recommended_status =
      pyNe (mapStatus (analyse_incident env summary.title summary.description).1.recommended_status)
        props.status := rfl
  simp only [processIncident, h1, h2, hd]
  cases hb : pyNe (mapStatus (analyse_incident env summary.title summary.description).1.recommended_status)
      props.status with
  | true =>
      simp only [hb, if_true]
      constructor
      · constructor
        · intro _; trivial
        · intro _
          obtain ⟨t, ht⟩ := update_ops_head env inc
            (mapStatus (analyse_incident env summary.title summary.description).1.recommended_status)
            (pyOrNone (analyse_incident env summary.title summary.description).1.classification)
            (pyOrNone (analyse_incident env summary.title summary.description).1.comment)
          simp [ht]
      · intro hc
        simp at hc
  | false =>
      simp only [hb, if_false]
      constructor
      · constructor
        · intro hne; exact absurd rfl hne
        · intro hc; simp at hc
      · intro _
        exact ⟨rfl, by simp⟩

/-- C4, witness: for `inc4` (current status Active, recommendation
`"Active"`) the gate is false, no store call is made, and the no-change
message is logged. -/
theorem decision_update_iff_status_differs_w :
    (((processIncident env4 inc4).ops ≠ []) ↔
      decideAction props4.status
        (analyse_incident env4 summary4.title summary4.description).1.recommended_status = true) ∧
    (decideAction props4.status
        (analyse_incident env4 summary4.title summary4.description).1.recommended_status = false →
      (processIncident env4 inc4).ops = [] ∧
      .infoNoChange summary4.id ∈ (processIncident env4 inc4).logs) :=
  decision_update_iff_status_differs env4 inc4 props4 summary4 rfl (by decide)

/-- C5: with the placeholder parser, every record `run_triage` submits to
the store carries status Active (never Closed, never New — in particular
the pass never closes an incident), and every store call is issued by the
processing of a fetched incident whose own snapshot status was New. -/
theorem run_triage_updates_only_active_from_new (env : Env) (op : StoreOp)
    (h : op ∈ (run_triage env).ops) :
    (∀ id r, op = .put id r →
      ∃ newProps, r.properties = some newProps ∧ newProps.status = .enum .ACTIVE) ∧
    (∃ inc props, inc ∈ (list_active_incidents env).1 ∧ inc.properties = some props ∧
      props.status = .enum .NEW ∧ op ∈ (processIncident env inc).ops) := by
  cases hinit : env.llmInit with
  | error e => simp [run_triage, hinit] at h
  | ok u =>
      have hops : (run_triage env).ops =
          (triageLoop env (list_active_incidents env).1).ops := by
        simp [run_triage, hinit]
      rw [hops] at h
      obtain ⟨inc, hmem, hop⟩ := triageLoop_ops_mem env _ op h
      obtain ⟨props, hp, ⟨summary, hs⟩, hne, c, cm, hop2⟩ :=
        processIncident_ops_cases env inc op hop
      have hact : isActive inc = true := mem_list_active env inc hmem
      have hact2 : statusInNewActive props.status = true := by
        unfold isActive at hact
        rw [hp] at hact
        exact hact
      have hstat : props.status = .enum .NEW := by
        cases hsv : props.status with
        | absent => rw [hsv] at hact2; simp [statusInNewActive] at hact2
        | enum e =>
            cases e with
            | NEW => rfl
            | ACTIVE => rw [hsv] at hne; simp [pyNe] at hne
            | CLOSED => rw [hsv] at hact2; simp [statusInNewActive] at hact2
        | raw s =>
            exfalso
            rw [hsv] at hact2
            simp only [statusInNewActive, Bool.or_eq_true, beq_iff_eq] at hact2
            have hsne : s ≠ "" := by
              rcases hact2 with rfl | rfl <;> decide
            unfold buildSummaryProps at hs
            rw [hsv] at hs
            cases hsev : enumFieldText IncidentSeverity.name props.severity with
            | error e2 => rw [hsev] at hs; simp at hs
            | ok sevText => rw [hsev] at hs; simp [enumFieldText, hsne] at hs
      refine ⟨?_, ⟨inc, props, hmem, hp, hstat, hop⟩⟩
      intro id r hput
      subst hput
      rcases update_ops_mem env inc .ACTIVE c cm _ hop2 with hget | ⟨id2, r2, np, heq, hprops, hstatus⟩
      · exact absurd hget (by simp)
      · injection heq with hi hr
        subst hi
        subst hr
        exact ⟨np, hprops, hstatus⟩

/-- C5, witness: in the `env5` scenario (one New incident) the submitted
record `rec5` carries status Active, and the incident whose processing
issued that submit was fetched with status New. -/
theorem run_triage_updates_only_active_from_new_w :
    StoreOp.put "inc-1" rec5 ∈ (run_triage env5).ops ∧
    (∃ newProps, rec5.properties = some newProps ∧ newProps.status = .enum .ACTIVE) ∧
    (∃ inc props, inc ∈ (list_active_incidents env5).1 ∧ inc.properties = some props ∧
      props.status = .enum .NEW ∧
      StoreOp.put "inc-1" rec5 ∈ (processIncident env5 inc).ops) := by
  have h := run_triage_updates_only_active_from_new env5 (.put "inc-1" rec5) (by decide)
  exact ⟨by decide, h.1 "inc-1" rec5 rfl, h.2⟩

/-- C6, counterexample: the success-path comment is not the whole model
reply — the code stores `content.strip()`, so a reply with surrounding
whitespace is stored stripped. -/
theorem analyse_incident_comment_not_whole_reply :
    env6.llmComplete (buildPrompt "t" "d") = .ok " Benign activity. " ∧
    (analyse_incident env6 "t" "d").1.comment = "Benign activity." ∧
    ("Benign activity." : String) ≠ " Benign activity. " :=
  ⟨rfl, by decide, by decide⟩

/-- C6, amended claim: on the success path the recommendation parser
returns `recommended_status = "Active"`, an empty classification, and the
whole model reply, stripped of leading and trailing whitespace, stored as
the comment — it extracts nothing from the text. -/
theorem analyse_incident_success_stub (env : Env) (t d content : String)
    (h : env.llmComplete (buildPrompt t d) = .ok content) :
    analyse_incident env t d =
      ({ recommended_status := "Active", classification := "", comment := pyStrip content }, []) := by
  simp [analyse_incident, h]

/-- C6, witness for the amended claim on the `env6` reply. -/
theorem analyse_incident_success_stub_w :
    analyse_incident env6 "t" "d" =
      ({ recommended_status := "Active", classification := "",
         comment := pyStrip " Benign activity. " }, []) :=
  analyse_incident_success_stub env6 "t" "d" " Benign activity. " rfl

/-- C7: when the re-fetch yields nothing, the update is aborted — only the
get was issued, no write is attempted, the not-found warning is logged,
and the call returns normally. -/
theorem update_incident_status_absent_refetch (env : Env) (incident : Incident)
    (status : IncidentStatus) (classification comment : Option String)
    (h : env.getResult incident.name = .ok none) :
    update_incident_status env incident status classification comment =
      { ops := [.get incident.name], logs := [.warnNotFound incident.name], outcome := .ok () } := by
  simp [update_incident_status, update_incident_status_body, h]

/-- C7, witness on a store with no incidents. -/
theorem update_incident_status_absent_refetch_w :
    update_incident_status env7 inc7 .CLOSED none none =
      { ops := [.get "inc-7"], logs := [.warnNotFound "inc-7"], outcome := .ok () } :=
  update_incident_status_absent_refetch env7 inc7 .CLOSED none none rfl

/-- C8, counterexample: the claim that an update failure is logged with
the incident identifier and the attempted status is false — when the
submit for `inc8` fails, the failure is caught and logged with the id and
the exception, but no emitted log event carries a status argument (only
the success log formats the status in). -/
theorem update_failure_log_lacks_status :
    (update_incident_status_body env8 inc8 .ACTIVE none none).outcome =
      .error (.err "503 Service Unavailable") ∧
    (update_incident_status env8 inc8 .ACTIVE none none).logs =
      [.errorUpdating "inc-8" (.err "503 Service Unavailable")] ∧
    logsCarryStatus (update_incident_status env8 inc8 .ACTIVE none none).logs = false :=
  ⟨by decide, by decide, by decide⟩

/-- C8, amended claim: any failure raised during the re-fetch or the
submit is caught inside update application and logged with the incident
identifier and the exception (the attempted status appears only in the
success log); the failure never propagates to the caller, so the loop goes
on to process the remaining incidents. -/
theorem update_failure_caught_and_logged (env : Env) (incident : Incident)
    (status : IncidentStatus) (classification comment : Option String) (e : PyExc)
    (h : (update_incident_status_body env incident status classification comment).outcome =
      .error e) :
    (update_incident_status env incident status classification comment).outcome = .ok () ∧
    .errorUpdating incident.name e ∈
      (update_incident_status env incident status classification comment).logs ∧
    (∀ props rest, incident.properties = some props →
      (∃ summary, buildSummaryProps incident.name props = .ok summary) →
      (triageLoop env (incident :: rest)).logs =
        (processIncident env incident).logs ++ (triageLoop env rest).logs ∧
      (triageLoop env (incident :: rest)).outcome = (triageLoop env rest).outcome) := by
  refine ⟨update_incident_status_total env incident status classification comment, ?_, ?_⟩
  · rw [update_incident_status_catch env incident status classification comment e h]
    simp
  · intro props rest h1 hs
    obtain ⟨summary, h2⟩ := hs
    have ho := processIncident_outcome_ok env incident props summary h1 h2
    constructor <;> simp [triageLoop, ho]

/-- C8, witness for the amended claim: the failing submit for `inc8` is
caught, logged with the id, and the loop continues past it. -/
theorem update_failure_caught_and_logged_w :
    (update_incident_status env8 inc8 .ACTIVE none none).outcome = .ok () ∧
    .errorUpdating "inc-8" (.err "503 Service Unavailable") ∈
      (update_incident_status env8 inc8 .ACTIVE none none).logs ∧
    ((triageLoop env8 [inc8]).logs =
        (processIncident env8 inc8).logs ++ (triageLoop env8 ([] : List Incident)).logs ∧
      (triageLoop env8 [inc8]).outcome = (triageLoop env8 ([] : List Incident)).outcome) := by
  have h := update_failure_caught_and_logged env8 inc8 .ACTIVE none none
    (.err "503 Service Unavailable") (by decide)
  exact ⟨h.1, h.2.1, h.2.2 props8 [] rfl ⟨_, rfl⟩⟩

/-- C9: every record submitted by update application is the re-fetched
record with its status always set, its classification and comment
overwritten only when a non-empty value was provided, and every other
field (title, description, severity, name) unchanged. -/
theorem update_put_record_frame (env : Env) (incident : Incident) (status : IncidentStatus)
    (classification comment : Option String) (id : String) (r : Incident)
    (h : StoreOp.put id r ∈ (update_incident_status env incident status classification comment).ops) :
    ∃ cur curProps newProps,
      env.getResult incident.name = .ok (some cur) ∧
      cur.properties = some curProps ∧
      id = cur.name ∧ r.name = cur.name ∧ r.properties = some newProps ∧
      newProps.status = .enum status ∧
      newProps.classification =
        (if optTruthy classification then classification else curProps.classification) ∧
      newProps.classification_comment =
        (if optTruthy comment then comment else curProps.classification_comment) ∧
      newProps.title = curProps.title ∧
      newProps.description = curProps.description ∧
      newProps.severity = curProps.severity := by
  rw [update_ops_eq_body_ops] at h
  unfold update_incident_status_body at h
  split at h
  · simp at h
  · simp at h
  · rename_i cur heq
    split at h
    · simp at h
    · rename_i curProps hprops
      dsimp only at h
      split at h <;>
      · simp only [List.mem_cons, List.mem_singleton, List.not_mem_nil, or_false] at h
        rcases h with h | h
        · exact absurd h (by simp)
        · injection h with hid hrec
          subst hrec
          subst hid
          exact ⟨cur, curProps, _, heq, hprops, rfl, rfl, rfl, rfl, rfl, rfl, rfl, rfl, rfl⟩

/-- C9, witness: the submit for `inc9` keeps the empty classification from
overwriting the stored one, sets the non-empty comment, and leaves every
other field of `props9` intact. -/
theorem update_put_record_frame_w :
    StoreOp.put "inc-9" r9 ∈
      (update_incident_status env9 inc9 .ACTIVE none (some "Benign, closing.")).ops ∧
    (∃ cur curProps newProps,
      env9.getResult inc9.name = .ok (some cur) ∧
      cur.properties = some curProps ∧
      "inc-9" = cur.name ∧ r9.name = cur.name ∧ r9.properties = some newProps ∧
      newProps.status = .enum .ACTIVE ∧
      newProps.classification = (if optTruthy none then none else curProps.classification) ∧
      newProps.classification_comment =
        (if optTruthy (some "Benign, closing.") then some "Benign, closing."
         else curProps.classification_comment) ∧
      newProps.title = curProps.title ∧
      newProps.description = curProps.description ∧
      newProps.severity = curProps.severity) :=
  ⟨by decide,
   update_put_record_frame env9 inc9 .ACTIVE none (some "Benign, closing.") "inc-9" r9 (by decide)⟩

/-- C10, counterexample: the claim that present values are carried through
unchanged is false — the defaulting uses Python truthiness, so a present
but empty title is replaced by the `"(no title)"` placeholder. -/
theorem buildSummary_empty_title_replaced :
    propsEmptyTitle.title = some "" ∧
    buildSummary incEmptyTitle =
      .ok { id := "inc-10", title := "(no title)", description := "desc",
            severity := "HIGH", status := "NEW" } ∧
    ("(no title)" : String) ≠ "" :=
  ⟨rfl, by decide, by decide⟩

/-- C10, amended claim: summary construction applies the defaulting rules
by falsiness — an absent or empty title/description gets its placeholder,
an absent or empty severity/status becomes `"Unknown"` — while a non-empty
present title/description is carried through unchanged and an enum-valued
severity/status is rendered as its member name; construction succeeds
whenever the severity and status fields are absent, enum members, or
empty (a non-empty raw-string field raises instead). -/
theorem buildSummary_defaulting (inc : Incident) (props : IncidentProperties)
    (h1 : inc.properties = some props)
    (h2 : fieldOk props.severity = true) (h3 : fieldOk props.status = true) :
    ∃ s, buildSummary inc = .ok s ∧
      s.id = inc.name ∧
      ((props.title = none ∨ props.title = some "") → s.title = "(no title)") ∧
      (∀ t, props.title = some t → t ≠ "" → s.title = t) ∧
      ((props.description = none ∨ props.description = some "") →
        s.description = "(no description)") ∧
      (∀ d, props.description = some d → d ≠ "" → s.description = d) ∧
      ((props.severity = .absent ∨ props.severity = .raw "") → s.severity = "Unknown") ∧
      (∀ e, props.severity = .enum e → s.severity = e.name) ∧
      ((props.status = .absent ∨ props.status = .raw "") → s.status = "Unknown") ∧
      (∀ e, props.status = .enum e → s.status = e.name) := by
  obtain ⟨sevText, hsev⟩ := enumFieldText_ok_of_fieldOk IncidentSeverity.name props.severity h2
  obtain ⟨stText, hst⟩ := enumFieldText_ok_of_fieldOk IncidentStatus.name props.status h3
  have hbs := buildSummaryProps_char inc.name props sevText stText hsev hst
  refine ⟨{ id := inc.name, title := pyOrStr props.title "(no title)",
            description := pyOrStr props.description "(no description)",
            severity := sevText, status := stText },
    by simp [buildSummary, h1, hbs], rfl, ?_, ?_, ?_, ?_, ?_, ?_, ?_, ?_⟩
  · intro hc; exact pyOrStr_default props.title "(no title)" hc
  · intro t ht hne; exact pyOrStr_keep props.title "(no title)" t ht hne
  · intro hc; exact pyOrStr_default props.description "(no description)" hc
  · intro d hd hne; exact pyOrStr_keep props.description "(no description)" d hd hne
  · intro hc
    have h4 := hsev
    rw [enumFieldText_default IncidentSeverity.name props.severity hc] at h4
    injection h4 with hh
    exact hh.symm
  · intro e he
    have h4 := hsev
    rw [enumFieldText_enum IncidentSeverity.name props.severity e he] at h4
    injection h4 with hh
    exact hh.symm
  · intro hc
    have h4 := hst
    rw [enumFieldText_default IncidentStatus.name props.status hc] at h4
    injection h4 with hh
    exact hh.symm
  · intro e he
    have h4 := hst
    rw [enumFieldText_enum IncidentStatus.name props.status e he] at h4
    injection h4 with hh
    exact hh.symm

/-- C10, witness for the amended claim on a record with every field
absent. -/
theorem buildSummary_defaulting_w :
    ∃ s, buildSummary incAllAbsent = .ok s ∧
      s.id = incAllAbsent.name ∧
      ((propsAllAbsent.title = none ∨ propsAllAbsent.title = some "") →
        s.title = "(no title)") ∧
      (∀ t, propsAllAbsent.title = some t → t ≠ "" → s.title = t) ∧
      ((propsAllAbsent.description = none ∨ propsAllAbsent.description = some "") →
        s.description = "(no description)") ∧
      (∀ d, propsAllAbsent.description = some d → d ≠ "" → s.description = d) ∧
      ((propsAllAbsent.severity = .absent ∨ propsAllAbsent.severity = .raw "") →
        s.severity = "Unknown") ∧
      (∀ e, propsAllAbsent.severity = .enum e → s.severity = e.name) ∧
      ((propsAllAbsent.status = .absent ∨ propsAllAbsent.status = .raw "") →
        s.status = "Unknown") ∧
      (∀ e, propsAllAbsent.status = .enum e → s.status = e.name) :=
  buildSummary_defaulting incAllAbsent propsAllAbsent rfl (by decide) (by decide)
